import Mathlib

/-!
Shallow embedding of pycaw/utils.py: the interface-activation and
capability-caching layer of the pycaw audio wrapper library.

Native COM objects (the device handle, the session-control handle, the
property store, the device enumerator) are modelled as structures of
response functions; the wrappers' mutable caches are threaded as explicit
state, and each operation additionally returns a count or a log of the
native calls it performed, so that call-count properties can be stated.
-/

/-- Association-list lookup modelling the Python dict used as an
interface cache: membership test plus subscript.  Bindings are inserted
at the head only when the key is absent, so the first binding wins. -/
def assocFind (k : String) : List (String × Nat) → Option Nat
  | [] => none
  | (k0, v) :: rest => if k0 = k then some v else assocFind k rest

/-- A property key, i.e. a PROPERTYKEY value: a format GUID plus a
property id.  GUIDs are modelled as naturals. -/
structure PropKey where
  fmtid : Nat
  pid : Nat
deriving DecidableEq

/-- Modelled from the spec: the canonical string form of a property key
(the PROPERTYKEY class lives in pycaw/api, not under src/; per the spec
each entry's key is resolved to its canonical string form).  The format
identifier and the property id are joined with a space, as produced by
the class's string conversion. -/
def PropKey.strOf (k : PropKey) : String :=
  toString k.fmtid ++ " " ++ toString k.pid

/-- A Python value as it appears in property-store reads: a string, a
PROPERTYKEY object, a plain data value, or the empty dict that the code
uses as its error placeholder. -/
inductive PyVal where
  | str (s : String)
  | pkey (k : PropKey)
  | vint (n : Nat)
  | emptyDict
deriving DecidableEq

/-- Python equality between a str and an arbitrary value, as used by the
comparison in AudioDevice.getProperty.  A str equals only an equal str;
comparing a str with a PROPERTYKEY object (which defines no equality of
its own) or with any other value yields False. -/
def pyEqStr (s : String) (v : PyVal) : Bool :=
  match v with
  | PyVal.str t => s == t
  | _ => false

/-- Python str() applied to an optional GUID, as used for the interface
cache keys: str(None) is the string None, str of a GUID is its
rendering. -/
def pyStr : Option Nat → String
  | none => "None"
  | some g => toString g

/-- The native property store: an ordered list of keys (GetCount/GetAt)
and a value fetch per key.  GetValueOf returning none models the
GetValue/GetValue/clear sequence raising COMError for that entry. -/
structure PropStore where
  keys : List PropKey
  GetValueOf : PropKey → Option PyVal

/-- The native IAudioSessionControl2 object wrapped by an AudioSession:
its getters are data fields (setters are modelled as field updates by
the wrapper operations) and QueryByIid answers the session-scoped
QueryInterface for a requested interface iid. -/
structure NativeCtl where
  GetProcessId : Nat
  GetDisplayName : String
  GetIconPath : String
  GetSessionIdentifier : String
  GetSessionInstanceIdentifier : String
  GetState : Nat
  GetGroupingParam : Nat
  QueryByIid : Option Nat → Nat

/-- The native device handle wrapped by an AudioDevice.  Activate and
QueryByIid model dev.Activate followed by QueryInterface, producing
opaque interface handles (naturals); HasSessionEnum models the hasattr
check on the activated session manager; EnumSlots models the session
enumerator: GetSession(i) may return None (outer none), and the
narrowing of a returned control to IAudioSessionControl2 may fail
(inner none). -/
structure NativeDev where
  GetId : String
  GetState : Nat
  OpenPropertyStore : Option PropStore
  Activate : Nat → Nat
  QueryByIid : Nat → Nat → Nat
  HasSessionEnum : Nat → Bool
  GetSessionEnum : Nat → Nat
  EnumSlots : Nat → List (Option (Option NativeCtl))

/-- Modelled from the spec: the device-state enumeration (the
AudioDeviceState enum lives in pycaw/constants, not under src/); the
spec lists the four states Active, Disabled, NotPresent, Unplugged. -/
inductive AudioDeviceState where
  | Active
  | Disabled
  | NotPresent
  | Unplugged
deriving DecidableEq

/-- Modelled from the spec: conversion of the raw native state code to
the state enumeration (the numeric codes live in pycaw/constants, not
under src/); the exact code assignment is immaterial to the claims. -/
def AudioDeviceState.fromCode (n : Nat) : AudioDeviceState :=
  if n = 1 then AudioDeviceState.Active
  else if n = 2 then AudioDeviceState.Disabled
  else if n = 4 then AudioDeviceState.NotPresent
  else AudioDeviceState.Unplugged

/-- A capability interface class as passed to ActivateInterface or
QueryInterface: it carries the class iid, which may be absent. -/
structure Interface where
  iid : Option Nat

/-- Modelled from the spec: the IAudioSessionManager2 interface class
(pycaw/api, not under src/), carrying its fixed non-null iid; the
numeric value is immaterial to the claims. -/
def IAudioSessionManager2 : Interface := Interface.mk (some 9202)

/-- Modelled from the spec: IID_Empty (pycaw/constants, not under
src/), the fixed null-context identifier passed to the native display
name and icon path setters. -/
def IID_Empty : Nat := 0

/-- A notification callback object.  Python class instances are truthy,
so the truthiness test in unregister_notification succeeds exactly when
a callback object is stored. -/
structure Callback where
  ident : Nat
deriving DecidableEq

/-- The AudioDevice wrapper state: the native handle plus the four
caches initialised by the constructor. -/
structure AudioDevice where
  _dev : NativeDev
  _id : Option String
  _state : Option AudioDeviceState
  _properties : Option (List (String × PyVal))
  _interfaces : List (String × Nat)

/-- The AudioSession wrapper state: the native session control plus the
caches initialised by the constructor. -/
structure AudioSession where
  _ctl : NativeCtl
  _process : Option Nat
  _interfaces : List (String × Nat)
  _callback : Option Callback

/-- AudioDevice.ActivateInterface: a null iid returns None at once;
otherwise the cache keyed by the stringified iid is consulted, and on a
miss the native Activate plus QueryInterface pair runs once and the
result is stored.  Returns the result, the updated wrapper, and the
number of native activation calls performed. -/
def AudioDevice.ActivateInterface (d : AudioDevice) (i : Interface) :
    Option Nat × AudioDevice × Nat :=
  match i.iid with
  | none => (none, d, 0)
  | some g =>
    let interface_name := toString g
    match assocFind interface_name d._interfaces with
    | some h => (some h, d, 0)
    | none =>
      let activated := d._dev.Activate g
      let h := d._dev.QueryByIid activated g
      (some h, { d with _interfaces := (interface_name, h) :: d._interfaces }, 1)

/-- AudioDevice.id: lazily fetched via GetId and cached.  Returns the
value, the updated wrapper, and the number of native fetches. -/
def AudioDevice.id (d : AudioDevice) : String × AudioDevice × Nat :=
  match d._id with
  | some v => (v, d, 0)
  | none => (d._dev.GetId, { d with _id := some d._dev.GetId }, 1)

/-- AudioDevice.state: lazily fetched via GetState, converted to the
state enumeration and cached.  Returns the value, the updated wrapper,
and the number of native fetches. -/
def AudioDevice.state (d : AudioDevice) : AudioDeviceState × AudioDevice × Nat :=
  match d._state with
  | some s => (s, d, 0)
  | none =>
    let s := AudioDeviceState.fromCode d._dev.GetState
    (s, { d with _state := some s }, 1)

/-- The scan inside AudioDevice.getProperty: walk the store's keys in
order; at the first key whose string form Python-equals the requested
key, fetch and convert the value, returning it on success and the empty
dict plus one warning on COMError; reaching the end falls off the loop
and returns None.  The second component counts warnings. -/
def findProp (store : PropStore) (key : PyVal) : List PropKey → Option PyVal × Nat
  | [] => (none, 0)
  | pk :: rest =>
    if pyEqStr (PropKey.strOf pk) key then
      match store.GetValueOf pk with
      | some v => (some v, 0)
      | none => (some PyVal.emptyDict, 1)
    else findProp store key rest

/-- AudioDevice.getProperty: open the property store (absence yields
None) and scan for the requested key.  Returns the value found, if any,
and the number of warnings recorded. -/
def AudioDevice.getProperty (d : AudioDevice) (key : PyVal) : Option PyVal × Nat :=
  match d._dev.OpenPropertyStore with
  | none => (none, 0)
  | some store => findProp store key store.keys

/-- Python dict assignment on an insertion-ordered association list:
replace the value of an existing key in place, otherwise append. -/
def dictInsert : List (String × PyVal) → String → PyVal → List (String × PyVal)
  | [], k, v => [(k, v)]
  | (k0, v0) :: rest, k, v =>
    if k0 = k then (k, v) :: rest else (k0, v0) :: dictInsert rest k v

/-- The loop inside AudioDevice.properties: for each key of the opened
store, call AudioDevice.getProperty with the key object itself; skip a
None result, otherwise store the value under the key's string form.
Accumulates the mapping and the warning count. -/
def propsLoop (d : AudioDevice) (keys : List PropKey) :
    List (String × PyVal) × Nat :=
  keys.foldl
    (fun acc pk =>
      let r := AudioDevice.getProperty d (PyVal.pkey pk)
      match r.1 with
      | none => (acc.1, acc.2 + r.2)
      | some v => (dictInsert acc.1 (PropKey.strOf pk) v, acc.2 + r.2))
    ([], 0)

/-- The result of one AudioDevice.properties read: the mapping
returned, the updated wrapper, the number of native property-store
fetch episodes performed (0 on a cache hit, 1 otherwise), and the
number of warnings recorded. -/
structure PropsRead where
  value : List (String × PyVal)
  dev : AudioDevice
  fetched : Nat
  warns : Nat

/-- AudioDevice.properties: served from the cache when present;
otherwise the store is opened (absence yields an empty dict that is NOT
cached), the key list is walked via getProperty, and the resulting
mapping is cached. -/
def AudioDevice.properties (d : AudioDevice) : PropsRead :=
  match d._properties with
  | some ps => PropsRead.mk ps d 0 0
  | none =>
    match d._dev.OpenPropertyStore with
    | none => PropsRead.mk [] d 1 0
    | some store =>
      let r := propsLoop d store.keys
      PropsRead.mk r.1 { d with _properties := some r.1 } 1 r.2

/-- Wrap one narrowed session control as a fresh AudioSession, as the
AudioSession constructor does. -/
def AudioSession.new (c : NativeCtl) : AudioSession :=
  AudioSession.mk c none [] none

/-- One slot of the session enumerator inside AudioDevice.Sessions: a
None control is skipped, a control whose narrowing to
IAudioSessionControl2 returned None is skipped, and a narrowed control
is wrapped as a session. -/
def sessionOfSlot : Option (Option NativeCtl) → Option AudioSession
  | some (some c) => some (AudioSession.new c)
  | _ => none

/-- AudioDevice.Sessions: an empty list for a non-Active state; then
the session manager is activated through the interface cache; a manager
without a session enumerator (the hasattr check) yields an empty list;
otherwise the enumerator's slots are walked, skipping None controls and
failed narrowings.  Returns the sessions, the updated wrapper, and the
number of native activation calls performed. -/
def AudioDevice.Sessions (d : AudioDevice) :
    List AudioSession × AudioDevice × Nat :=
  let rs := AudioDevice.state d
  let st := rs.1
  let d1 := rs.2.1
  if st ≠ AudioDeviceState.Active then ([], d1, 0)
  else
    let ra := AudioDevice.ActivateInterface d1 IAudioSessionManager2
    let d2 := ra.2.1
    let n := ra.2.2
    match ra.1 with
    | none => ([], d2, n)
    | some mgr =>
      if d2._dev.HasSessionEnum mgr = false then ([], d2, n)
      else
        let enumH := d2._dev.GetSessionEnum mgr
        let slots := d2._dev.EnumSlots enumH
        (slots.filterMap sessionOfSlot, d2, n)

/-- AudioSession.Process: when no process is cached and the process id
is nonzero, look the process up in the OS (the external lookup os,
returning none for NoSuchProcess); a failed lookup returns None without
caching, a successful one is cached; otherwise the cached field is
returned (None for a fresh session with process id 0). -/
def AudioSession.Process (os : Nat → Option Nat) (s : AudioSession) :
    Option Nat × AudioSession :=
  if s._process = none ∧ s._ctl.GetProcessId ≠ 0 then
    match os s._ctl.GetProcessId with
    | some p => (some p, { s with _process := some p })
    | none => (none, s)
  else (s._process, s)

/-- AudioSession.QueryInterface: the cache is keyed by the stringified
iid with no null check; on a miss the native QueryInterface runs once
and the result is stored.  Returns the handle, the updated wrapper, and
the number of native query calls performed. -/
def AudioSession.QueryInterface (s : AudioSession) (i : Interface) :
    Nat × AudioSession × Nat :=
  let interface_name := pyStr i.iid
  match assocFind interface_name s._interfaces with
  | some h => (h, s, 0)
  | none =>
    let h := s._ctl.QueryByIid i.iid
    (h, { s with _interfaces := (interface_name, h) :: s._interfaces }, 1)

/-- The AudioSession.DisplayName setter: read the current native value;
when it differs from the new value, call the native setter once with
the IID_Empty context.  Returns the updated wrapper and the log of
native setter calls as value-context pairs. -/
def AudioSession.setDisplayName (s : AudioSession) (value : String) :
    AudioSession × List (String × Nat) :=
  if s._ctl.GetDisplayName ≠ value then
    ({ s with _ctl := { s._ctl with GetDisplayName := value } },
     [(value, IID_Empty)])
  else (s, [])

/-- The AudioSession.IconPath setter: same dedup policy as the display
name setter. -/
def AudioSession.setIconPath (s : AudioSession) (value : String) :
    AudioSession × List (String × Nat) :=
  if s._ctl.GetIconPath ≠ value then
    ({ s with _ctl := { s._ctl with GetIconPath := value } },
     [(value, IID_Empty)])
  else (s, [])

/-- AudioSession.register_notification: only when no callback is stored
does the call store the callback and perform the native registration.
Returns the updated wrapper and the log of native registration calls. -/
def AudioSession.register_notification (s : AudioSession) (cb : Callback) :
    AudioSession × List Callback :=
  match s._callback with
  | none => ({ s with _callback := some cb }, [cb])
  | some _ => (s, [])

/-- AudioSession.unregister_notification: when a (truthy) callback is
stored, the native unregistration is called with it; the stored field
is not cleared.  Returns the updated wrapper and the log of native
unregistration calls. -/
def AudioSession.unregister_notification (s : AudioSession) :
    AudioSession × List Callback :=
  match s._callback with
  | some c => (s, [c])
  | none => (s, [])

/-- Modelled from the spec: the numeric code of the all-flows data-flow
filter (EDataFlow in pycaw/constants, not under src/); the default flow
used by GetSessions. -/
def EDataFlow_eAll : Nat := 2

/-- Modelled from the spec: the active-device state mask
(DEVICE_STATE.ACTIVE in pycaw/constants, not under src/); GetSessions
fetches only active devices. -/
def DEVICE_STATE_ACTIVE : Nat := 1

/-- The native device enumerator: EnumAudioEndpoints answers a flow and
state-mask filter with an optional collection, a collection being an
indexed list of optional device handles. -/
structure Enumerator where
  EnumAudioEndpoints : Nat → Nat → Option (List (Option NativeDev))

/-- The ambient native world: the device enumerator obtained by
CoCreateInstance, which may be unavailable. -/
structure PyWorld where
  deviceEnumerator : Option Enumerator

/-- AudioUtilities.GetDeviceEnumerator. -/
def AudioUtilities.GetDeviceEnumerator (w : PyWorld) : Option Enumerator :=
  w.deviceEnumerator

/-- AudioUtilities.CreateDevice: None yields None, otherwise a fresh
AudioDevice wrapper with empty caches. -/
def AudioUtilities.CreateDevice : Option NativeDev → Option AudioDevice
  | none => none
  | some dev => some (AudioDevice.mk dev none none none [])

/-- AudioUtilities.CreateDevices: a None collection yields an empty
list; otherwise each item is wrapped, skipping None devices. -/
def AudioUtilities.CreateDevices : Option (List (Option NativeDev)) → List AudioDevice
  | none => []
  | some slots => slots.filterMap AudioUtilities.CreateDevice

/-- AudioUtilities.GetDevices: an absent enumerator yields an empty
list; otherwise the endpoint collection for the flow and state filter
is wrapped. -/
def AudioUtilities.GetDevices (w : PyWorld) (flow deviceState : Nat) :
    List AudioDevice :=
  match AudioUtilities.GetDeviceEnumerator w with
  | none => []
  | some e => AudioUtilities.CreateDevices (e.EnumAudioEndpoints flow deviceState)

/-- The session-state filter of AudioUtilities.GetSessions: a None
filter admits every session, otherwise the session's native state is
compared. -/
def sessionStateFilter (sessionState : Option Nat) (s : AudioSession) : Bool :=
  match sessionState with
  | none => true
  | some st => st == s._ctl.GetState

/-- AudioUtilities.GetSessions: fetch the active devices for the flow,
and append each device's sessions that pass the state filter. -/
def AudioUtilities.GetSessions (w : PyWorld) (dataFlow : Nat)
    (sessionState : Option Nat) : List AudioSession :=
  let devices := AudioUtilities.GetDevices w dataFlow DEVICE_STATE_ACTIVE
  devices.foldl
    (fun acc device =>
      acc ++ (AudioDevice.Sessions device).1.filter (sessionStateFilter sessionState))
    []

/-- The scan inside AudioUtilities.GetProcessSession: the loop with an
early return on the first session whose process id equals the
argument. -/
def firstMatch (pid : Nat) : List AudioSession → Option AudioSession
  | [] => none
  | s :: rest => if s._ctl.GetProcessId == pid then some s else firstMatch pid rest

/-- AudioUtilities.GetProcessSession: scan the sessions of all active
devices under the default all-flows filter for the first one owned by
the given process id. -/
def AudioUtilities.GetProcessSession (w : PyWorld) (pid : Nat) :
    Option AudioSession :=
  firstMatch pid (AudioUtilities.GetSessions w EDataFlow_eAll none)

/-- A concrete native session control with process id 100 and display
name A, used by witnesses and examples. -/
def ctlA : NativeCtl :=
  NativeCtl.mk 100 "A" "iconA" "sidA" "instA" 1 0 (fun _ => 7)

/-- A concrete native session control with process id 200 and display
name B. -/
def ctlB : NativeCtl :=
  NativeCtl.mk 200 "B" "iconB" "sidB" "instB" 1 0 (fun _ => 7)

/-- A concrete native session control with process id 100 and display
name C, a later duplicate of the id of ctlA. -/
def ctlC : NativeCtl :=
  NativeCtl.mk 100 "C" "iconC" "sidC" "instC" 1 0 (fun _ => 7)

/-- A concrete native session control with process id 0. -/
def ctlZero : NativeCtl :=
  NativeCtl.mk 0 "Z" "iconZ" "sidZ" "instZ" 1 0 (fun _ => 7)

/-- A fresh session wrapper over ctlA. -/
def sFresh : AudioSession := AudioSession.new ctlA

/-- A fresh session wrapper over ctlZero. -/
def sZero : AudioSession := AudioSession.new ctlZero

/-- A session wrapper that already stores a registered callback. -/
def sReg : AudioSession := AudioSession.mk ctlA none [] (some (Callback.mk 1))

/-- An OS process lookup that knows no process. -/
def osNone : Nat → Option Nat := fun _ => none

/-- A concrete native device with no property store and no sessions. -/
def devNoStoreN : NativeDev :=
  NativeDev.mk "dev0" 1 none (fun _ => 0) (fun _ _ => 0) (fun _ => true)
    (fun _ => 0) (fun _ => [])

/-- A fresh device wrapper over devNoStoreN. -/
def dFresh : AudioDevice := AudioDevice.mk devNoStoreN none none none []

/-- A device wrapper whose cached state is Disabled. -/
def dDisabled : AudioDevice :=
  AudioDevice.mk devNoStoreN none (some AudioDeviceState.Disabled) none []

/-- A five-entry property store whose third entry raises COMError on
value conversion and whose other entries convert successfully. -/
def storeC4 : PropStore :=
  PropStore.mk
    [PropKey.mk 10 1, PropKey.mk 10 2, PropKey.mk 10 3, PropKey.mk 10 4,
     PropKey.mk 10 5]
    (fun k => if k.pid = 3 then none else some (PyVal.vint k.pid))

/-- A concrete native device exposing storeC4. -/
def devC4N : NativeDev :=
  NativeDev.mk "dev4" 1 (some storeC4) (fun _ => 0) (fun _ _ => 0)
    (fun _ => true) (fun _ => 0) (fun _ => [])

/-- A fresh device wrapper over devC4N. -/
def dC4 : AudioDevice := AudioDevice.mk devC4N none none none []

/-- A concrete active native device whose session enumerator yields the
three controls ctlA, ctlB, ctlC in order. -/
def devSessN : NativeDev :=
  NativeDev.mk "devS" 1 none (fun _ => 0) (fun _ _ => 0) (fun _ => true)
    (fun _ => 0)
    (fun _ => [some (some ctlA), some (some ctlB), some (some ctlC)])

/-- A world whose enumerator reports the single active device devSessN
for every filter. -/
def exampleWorld : PyWorld :=
  PyWorld.mk (some (Enumerator.mk (fun _ _ => some [some devSessN])))

/-- The early-return scan of GetProcessSession equals the first-match
search on the session list. -/
theorem firstMatch_eq_find (pid : Nat) (l : List AudioSession) :
    firstMatch pid l = l.find? (fun s => s._ctl.GetProcessId == pid) := by
  induction l with
  | nil => rfl
  | cons a t ih =>
    cases h : a._ctl.GetProcessId == pid
    · simp [firstMatch, List.find?_cons, h, ih]
    · simp [firstMatch, List.find?_cons, h]

/-- C1: on both the device wrapper (ActivateInterface) and the session
wrapper (QueryInterface), a second request for the same capability type
identifier performs no native activation or query call and returns the
same handle as the first request, which itself performs at most one
native call. -/
theorem C1_capability_cache_hit (d : AudioDevice) (s : AudioSession) (i : Interface) :
    ((AudioDevice.ActivateInterface d i).2.2 ≤ 1 ∧
     (AudioDevice.ActivateInterface (AudioDevice.ActivateInterface d i).2.1 i).2.2 = 0 ∧
     (AudioDevice.ActivateInterface (AudioDevice.ActivateInterface d i).2.1 i).1
       = (AudioDevice.ActivateInterface d i).1) ∧
    ((AudioSession.QueryInterface s i).2.2 ≤ 1 ∧
     (AudioSession.QueryInterface (AudioSession.QueryInterface s i).2.1 i).2.2 = 0 ∧
     (AudioSession.QueryInterface (AudioSession.QueryInterface s i).2.1 i).1
       = (AudioSession.QueryInterface s i).1) := by
  constructor
  · rcases hi : i.iid with _ | g
    · simp [AudioDevice.ActivateInterface, hi]
    · rcases hf : assocFind (toString g) d._interfaces with _ | h
      · simp [AudioDevice.ActivateInterface, hi, hf, assocFind]
      · simp [AudioDevice.ActivateInterface, hi, hf]
  · rcases hf : assocFind (pyStr i.iid) s._interfaces with _ | h
    · simp [AudioSession.QueryInterface, hf, assocFind]
    · simp [AudioSession.QueryInterface, hf]

/-- C2 counterexample: on the session wrapper, requesting a capability
whose type identifier is absent performs one native query call rather
than returning no capability with no native call: the null identifier
is not special-cased by AudioSession.QueryInterface. -/
theorem C2_counterexample :
    (AudioSession.QueryInterface sFresh (Interface.mk none)).2.2 = 1 := rfl

/-- C2 (amended): on the device wrapper a null type identifier returns
no capability without any native activation call; the session wrapper
does not special-case a null identifier: with no entry cached under the
stringified null key, it performs one native query call and returns the
native query result. -/
theorem C2_null_identifier (d : AudioDevice) (s : AudioSession) (i : Interface)
    (hi : i.iid = none) :
    AudioDevice.ActivateInterface d i = (none, d, 0) ∧
    (assocFind "None" s._interfaces = none →
      (AudioSession.QueryInterface s i).2.2 = 1 ∧
      (AudioSession.QueryInterface s i).1 = s._ctl.QueryByIid none) := by
  constructor
  · simp [AudioDevice.ActivateInterface, hi]
  · intro hc
    simp [AudioSession.QueryInterface, hi, pyStr, hc]

/-- C2 witness: the amended statement at a fresh device, a fresh
session and an interface with an absent identifier. -/
theorem C2_null_identifier_witness :
    AudioDevice.ActivateInterface dFresh (Interface.mk none) = (none, dFresh, 0) ∧
    ((AudioSession.QueryInterface sFresh (Interface.mk none)).2.2 = 1 ∧
     (AudioSession.QueryInterface sFresh (Interface.mk none)).1
       = sFresh._ctl.QueryByIid none) :=
  ⟨(C2_null_identifier dFresh sFresh (Interface.mk none) rfl).1,
   (C2_null_identifier dFresh sFresh (Interface.mk none) rfl).2 rfl⟩

/-- C3: a device whose cached state is not Active yields an empty
session list, an unchanged wrapper, and zero native session-manager
activation calls. -/
theorem C3_inactive_device_sessions (d : AudioDevice) (st : AudioDeviceState)
    (hc : d._state = some st) (hst : st ≠ AudioDeviceState.Active) :
    AudioDevice.Sessions d = ([], d, 0) := by
  simp [AudioDevice.Sessions, AudioDevice.state, hc, hst]

/-- C3 witness: the statement at a device whose cached state is
Disabled. -/
theorem C3_inactive_device_sessions_witness :
    AudioDevice.Sessions dDisabled = ([], dDisabled, 0) :=
  C3_inactive_device_sessions dDisabled AudioDeviceState.Disabled rfl (by decide)

/-- C4: evaluating the property read on a five-entry store whose third
entry raises on value conversion: the code returns an empty mapping
with zero warnings, because AudioDevice.properties passes each
PROPERTYKEY object itself as the key while getProperty compares each
entry's stringified key against it, and in Python a str never equals a
PROPERTYKEY, so no entry ever matches. -/
theorem C4_properties_eval :
    (AudioDevice.properties dC4).value = [] ∧
    (AudioDevice.properties dC4).warns = 0 ∧
    (AudioDevice.properties dC4).fetched = 1 :=
  ⟨rfl, rfl, rfl⟩

/-- C5: the display name and icon path setters perform zero native
setter calls when the new value equals the currently-read value, and
exactly one native setter call, carrying the IID_Empty null context,
when it differs. -/
theorem C5_setter_dedup (s : AudioSession) (v : String) :
    (s._ctl.GetDisplayName = v → AudioSession.setDisplayName s v = (s, [])) ∧
    (s._ctl.GetDisplayName ≠ v →
      (AudioSession.setDisplayName s v).2 = [(v, IID_Empty)]) ∧
    (s._ctl.GetIconPath = v → AudioSession.setIconPath s v = (s, [])) ∧
    (s._ctl.GetIconPath ≠ v →
      (AudioSession.setIconPath s v).2 = [(v, IID_Empty)]) := by
  refine ⟨?_, ?_, ?_, ?_⟩ <;> intro h <;>
    simp [AudioSession.setDisplayName, AudioSession.setIconPath, h]

/-- C5 witness: the statement at a session whose display name reads A
and whose icon path reads iconA, for an equal and a differing new
value. -/
theorem C5_setter_dedup_witness :
    AudioSession.setDisplayName sFresh "A" = (sFresh, []) ∧
    (AudioSession.setDisplayName sFresh "B").2 = [("B", IID_Empty)] ∧
    AudioSession.setIconPath sFresh "iconA" = (sFresh, []) ∧
    (AudioSession.setIconPath sFresh "B").2 = [("B", IID_Empty)] :=
  ⟨(C5_setter_dedup sFresh "A").1 rfl,
   (C5_setter_dedup sFresh "B").2.1 (by decide),
   (C5_setter_dedup sFresh "iconA").2.2.1 rfl,
   (C5_setter_dedup sFresh "B").2.2.2 (by decide)⟩

/-- C6: registering a notification callback while one is already stored
is a no-op that keeps the stored callback and performs no native
registration call, and unregistering with no callback stored is a no-op
with no native unregistration call. -/
theorem C6_notification_idempotent (s : AudioSession) (c cb : Callback) :
    (s._callback = some c → AudioSession.register_notification s cb = (s, [])) ∧
    (s._callback = none → AudioSession.unregister_notification s = (s, [])) := by
  constructor
  · intro h; simp [AudioSession.register_notification, h]
  · intro h; simp [AudioSession.unregister_notification, h]

/-- C6 witness: the statement at a session that stores callback 1 and
at a fresh session with none stored. -/
theorem C6_notification_idempotent_witness :
    AudioSession.register_notification sReg (Callback.mk 2) = (sReg, []) ∧
    AudioSession.unregister_notification sFresh = (sFresh, []) :=
  ⟨(C6_notification_idempotent sReg (Callback.mk 1) (Callback.mk 2)).1 rfl,
   (C6_notification_idempotent sFresh (Callback.mk 1) (Callback.mk 2)).2 rfl⟩

/-- C7: GetProcessSession is the first-match linear scan over the
sessions of all active devices under the default all-flows filter,
returning none when no session matches; over the sessions with process
ids 100, 200, 100 and display names A, B, C, the query for 100 returns
the session named A, ignoring the later duplicate. -/
theorem C7_get_process_session :
    (∀ (w : PyWorld) (pid : Nat),
        AudioUtilities.GetProcessSession w pid =
          (AudioUtilities.GetSessions w EDataFlow_eAll none).find?
            (fun s => s._ctl.GetProcessId == pid)) ∧
    Option.map (fun s => s._ctl.GetDisplayName)
        (AudioUtilities.GetProcessSession exampleWorld 100) = some "A" ∧
    AudioUtilities.GetProcessSession exampleWorld 999 = none :=
  ⟨fun _ pid => firstMatch_eq_find pid _, rfl, rfl⟩

/-- C8: a session whose process id is zero yields no process, and a
session whose process id is no longer known to the OS lookup also
yields no process rather than a failure. -/
theorem C8_process_absence (os : Nat → Option Nat) (s : AudioSession)
    (hp : s._process = none) :
    (s._ctl.GetProcessId = 0 → (AudioSession.Process os s).1 = none) ∧
    (os s._ctl.GetProcessId = none → (AudioSession.Process os s).1 = none) := by
  constructor
  · intro h0; simp [AudioSession.Process, hp, h0]
  · intro hos
    by_cases h0 : s._ctl.GetProcessId = 0
    · simp [AudioSession.Process, hp, h0]
    · simp [AudioSession.Process, hp, h0, hos]

/-- C8 witness: the statement at a fresh session with process id 0 and
at a fresh session whose process id the OS lookup does not know. -/
theorem C8_process_absence_witness :
    (AudioSession.Process osNone sZero).1 = none ∧
    (AudioSession.Process osNone sFresh).1 = none :=
  ⟨(C8_process_absence osNone sZero rfl).1 rfl,
   (C8_process_absence osNone sFresh rfl).2 rfl⟩

/-- C9 counterexample: on a device whose native property store is
absent, each of two successive properties reads performs a native
property-store fetch and caches nothing, so the properties field is
natively fetched more than once over the wrapper's lifetime. -/
theorem C9_counterexample :
    (AudioDevice.properties dFresh).fetched = 1 ∧
    (AudioDevice.properties (AudioDevice.properties dFresh).dev).fetched = 1 ∧
    (AudioDevice.properties dFresh).dev = dFresh :=
  ⟨rfl, rfl, rfl⟩

/-- C9 (amended): id and state are natively fetched at most once: a
second read performs no fetch, returns the first read's value and
leaves the wrapper unchanged; properties behaves the same way, except
that when the native property store is absent and nothing is cached,
every read re-opens the store, returning the empty mapping and caching
nothing; a cached properties value is returned unchanged with no
further fetch. -/
theorem C9_single_fetch_snapshot (d : AudioDevice) :
    ((AudioDevice.id d).2.2 ≤ 1 ∧
     (AudioDevice.id (AudioDevice.id d).2.1).2.2 = 0 ∧
     (AudioDevice.id (AudioDevice.id d).2.1).1 = (AudioDevice.id d).1 ∧
     (AudioDevice.id (AudioDevice.id d).2.1).2.1 = (AudioDevice.id d).2.1) ∧
    ((AudioDevice.state d).2.2 ≤ 1 ∧
     (AudioDevice.state (AudioDevice.state d).2.1).2.2 = 0 ∧
     (AudioDevice.state (AudioDevice.state d).2.1).1 = (AudioDevice.state d).1 ∧
     (AudioDevice.state (AudioDevice.state d).2.1).2.1 = (AudioDevice.state d).2.1) ∧
    ((AudioDevice.properties d).fetched ≤ 1 ∧
     (AudioDevice.properties (AudioDevice.properties d).dev).value
       = (AudioDevice.properties d).value ∧
     (AudioDevice.properties (AudioDevice.properties d).dev).dev
       = (AudioDevice.properties d).dev ∧
     ((AudioDevice.properties d).dev._properties ≠ none →
       (AudioDevice.properties (AudioDevice.properties d).dev).fetched = 0) ∧
     (d._dev.OpenPropertyStore = none → d._properties = none →
       (AudioDevice.properties (AudioDevice.properties d).dev).fetched = 1)) := by
  refine ⟨?_, ?_, ?_⟩
  · rcases h : d._id with _ | v <;> simp [AudioDevice.id, h]
  · rcases h : d._state with _ | v <;> simp [AudioDevice.state, h]
  · rcases h : d._properties with _ | ps
    · rcases hs : d._dev.OpenPropertyStore with _ | store
      · simp [AudioDevice.properties, h, hs]
      · simp [AudioDevice.properties, h, hs]
    · simp [AudioDevice.properties, h]

/-- C9 witness: the amended statement at a device with a real store
(second read served from the cache with no fetch) and at a device with
an absent store (second read fetches again). -/
theorem C9_single_fetch_snapshot_witness :
    (AudioDevice.properties (AudioDevice.properties dC4).dev).fetched = 0 ∧
    (AudioDevice.properties (AudioDevice.properties dFresh).dev).fetched = 1 :=
  ⟨((C9_single_fetch_snapshot dC4).2.2).2.2.2.1 (by decide),
   ((C9_single_fetch_snapshot dFresh).2.2).2.2.2.2 rfl rfl⟩

/-- C10: once a callback is stored it is never cleared: unregistering
performs the native unregistration with the stored callback and leaves
the wrapper unchanged, a subsequent registration attempt is a no-op
that registers nothing, and a repeated unregistration performs the
native unregistration again with the same callback. -/
theorem C10_callback_never_cleared (s : AudioSession) (c cb : Callback)
    (h : s._callback = some c) :
    AudioSession.unregister_notification s = (s, [c]) ∧
    AudioSession.register_notification
        (AudioSession.unregister_notification s).1 cb
      = ((AudioSession.unregister_notification s).1, []) ∧
    AudioSession.unregister_notification
        (AudioSession.unregister_notification s).1
      = (s, [c]) := by
  simp [AudioSession.unregister_notification, AudioSession.register_notification, h]

/-- C10 witness: the statement at a session that stores callback 1,
re-registering callback 2 after unregistration. -/
theorem C10_callback_never_cleared_witness :
    AudioSession.unregister_notification sReg = (sReg, [Callback.mk 1]) ∧
    AudioSession.register_notification
        (AudioSession.unregister_notification sReg).1 (Callback.mk 2)
      = ((AudioSession.unregister_notification sReg).1, []) ∧
    AudioSession.unregister_notification
        (AudioSession.unregister_notification sReg).1
      = (sReg, [Callback.mk 1]) :=
  C10_callback_never_cleared sReg (Callback.mk 1) (Callback.mk 2) rfl
